import Mathlib

/-!
Verification of the GodHead Nexus adaptive-control hub
(`src/godhead_nexus/nexus_core.js` and the IoT integration module).

The JavaScript source is shallowly embedded: JS strings are modelled as
lists of code points (`List Nat`), byte buffers as lists of naturals with
an explicit `% 256` where the code operates on bytes, fallible operations
return `Except`, and each stateful hub object is an explicit state record
threaded through the operations.  External collaborators (the TensorFlow
model loader, the IPFS client, the IoT HTTP API, the clock) are an
explicit environment record of pure response functions congruent with the
narrow interfaces the code calls.
-/

namespace Nexus

/-- Error kinds observable from the hub's fallible operations.  `typeError`
models a JavaScript `TypeError` (e.g. invoking a method on `null`/`undefined`
or passing `undefined` to `Buffer.from`); the remaining constructors are the
error taxonomy named by the specification.  The embedding produces only the
errors the source code can actually raise. -/
inductive JsError
  | typeError
  | modelUnavailableError
  | integrityError
  | formatError
  | storageError
  | feedUnavailableError
deriving DecidableEq, Repr

/-- Decidable equality for `Except` results, so that concrete runs of the
fallible operations can be checked by evaluation. -/
instance exceptDecEq {ε α : Type} [DecidableEq ε] [DecidableEq α] :
    DecidableEq (Except ε α) := fun x y =>
  match x, y with
  | Except.ok a, Except.ok b =>
    if h : a = b then isTrue (by rw [h])
    else isFalse (by intro hh; cases hh; exact h rfl)
  | Except.error a, Except.error b =>
    if h : a = b then isTrue (by rw [h])
    else isFalse (by intro hh; cases hh; exact h rfl)
  | Except.ok _, Except.error _ => isFalse (by intro hh; cases hh)
  | Except.error _, Except.ok _ => isFalse (by intro hh; cases hh)

/-! ### Hex encoding (Node `Buffer` hex, as used by the cipher streams) -/

/-- Hex digit for a nibble, as a code point: `0`-`9` are 48-57, `a`-`f` are
97-102 (Node emits lowercase hex). -/
def hexDigit (n : Nat) : Nat :=
  if n < 10 then 48 + n else 87 + n

/-- Numeric value of a hex-digit code point; non-hex characters give 0
(Node's hex decoder is lenient, the claims never exercise invalid digits). -/
def hexVal (c : Nat) : Nat :=
  if 48 ≤ c ∧ c ≤ 57 then c - 48
  else if 97 ≤ c ∧ c ≤ 102 then c - 87
  else if 65 ≤ c ∧ c ≤ 70 then c - 55
  else 0

/-- Hex-encode a byte list, two code points per byte (the `'hex'` output
encoding of `cipher.update`/`cipher.final` and `getAuthTag().toString('hex')`). -/
def hexEncode : List Nat → List Nat
  | [] => []
  | b :: rest => hexDigit (b / 16 % 16) :: hexDigit (b % 16) :: hexEncode rest

/-- Decode pairs of hex code points back to bytes; a dangling final
character is dropped, as `Buffer.from(s, 'hex')` drops it. -/
def hexDecode : List Nat → List Nat
  | c1 :: c2 :: rest => (hexVal c1 * 16 + hexVal c2) :: hexDecode rest
  | _ => []

/-- Split a code-point string at every pipe character `'|'` (code 124),
modelling JavaScript `String.prototype.split('|')`: the result is never
empty, and a string with no pipe yields the one-element list of itself. -/
def splitPipe : List Nat → List (List Nat)
  | [] => [[]]
  | c :: rest =>
    if c = 124 then [] :: splitPipe rest
    else
      match splitPipe rest with
      | [] => [[c]]
      | seg :: segs => (c :: seg) :: segs

/-! ### The cipher behind `quantumEncrypt` / `quantumDecrypt`

The source calls Node's legacy `crypto.createCipher('aes-256-gcm', key)` /
`crypto.createDecipher('aes-256-gcm', key)`.  `createCipher` derives both
the AES key and the IV deterministically from the password alone
(`EVP_BytesToKey`, no salt, no per-call randomness), so the whole
construction is a deterministic function of (password, plaintext) with an
authentication tag over the ciphertext.  We model it at that level of
abstraction, executable and faithful in the structural properties the
claims exercise: a password-derived keystream (deterministic - no nonce is
generated or stored), byte-wise invertible encryption, and a deterministic
tag over (password, ciphertext) checked at decryption time. -/

/-- Deterministic seed derived from the password bytes alone (models
EVP_BytesToKey key+IV derivation: a function of the password only). -/
def keySeed (key : List Nat) : Nat :=
  key.foldl (fun acc b => (acc * 31 + b + 7) % 256) 11

/-- Deterministic keystream byte `i` for the given password.  Depends only
on the password and the position: two encryptions under the same password
use the identical keystream (the known fixed-derivation weakness). -/
def keystream (key : List Nat) (i : Nat) : Nat :=
  (keySeed key * 131 + i * 197 + 89) % 256

/-- Byte-wise stream encryption from position `i` (models
`cipher.update(data, 'utf8', 'hex')` + `cipher.final('hex')` before hex
output): each plaintext byte is combined with the keystream byte. -/
def encryptBytes (key : List Nat) : Nat → List Nat → List Nat
  | _, [] => []
  | i, b :: rest => ((b % 256) ^^^ keystream key i) :: encryptBytes key (i + 1) rest

/-- Byte-wise stream decryption from position `i` (models
`decipher.update(data, 'hex', 'utf8')` + `decipher.final('utf8')`). -/
def decryptBytes (key : List Nat) : Nat → List Nat → List Nat
  | _, [] => []
  | i, c :: rest => (c ^^^ keystream key i) :: decryptBytes key (i + 1) rest

/-- Deterministic authentication tag over password and ciphertext (models
`cipher.getAuthTag()`, two tag bytes in the embedding). -/
def authTag (key ct : List Nat) : List Nat :=
  [ (key ++ ct).foldl (fun acc b => (acc * 31 + b + 1) % 256) 0,
    (key ++ ct).foldl (fun acc b => (acc * 37 + b + 3) % 256) 0 ]

/-- `quantumEncrypt` (nexus_core.js lines 85-90): encrypt the data with the
password-derived cipher, hex-encode, and append `'|' + hex(tag)`.  The
result is the persisted blob string `hex(ciphertext) + "|" + hex(tag)`.
No randomness enters: the blob is a function of (key, data) only. -/
def quantumEncrypt (key data : List Nat) : List Nat :=
  let ct := encryptBytes key 0 data
  hexEncode ct ++ 124 :: hexEncode (authTag key ct)

/-- `quantumDecrypt` (nexus_core.js lines 93-100):
`const [data, tag] = encryptedData.split('|')` takes the first two
segments and silently ignores any further ones; a missing second segment
makes `tag` `undefined`, so `Buffer.from(tag, 'hex')` raises a JS
`TypeError`.  Decryption succeeds exactly when the decoded tag equals the
tag recomputed over the ciphertext under the key (`decipher.final` throws
on mismatch), and only then is plaintext returned. -/
def quantumDecrypt (key blob : List Nat) : Except JsError (List Nat) :=
  match splitPipe blob with
  | [] => Except.error JsError.typeError
  | [_] => Except.error JsError.typeError
  | d :: t :: _ =>
    let ct := hexDecode d
    if hexDecode t = authTag key ct then
      Except.ok (decryptBytes key 0 ct)
    else
      Except.error JsError.integrityError

/-! ### Basic lemmas about the cipher components -/

theorem keystream_lt (key : List Nat) (i : Nat) : keystream key i < 256 := by
  unfold keystream
  exact Nat.mod_lt _ (by norm_num)

theorem foldlMod_lt (f : Nat → Nat → Nat) (hf : ∀ a b, f a b < 256) :
    ∀ (l : List Nat) (acc : Nat), acc < 256 → l.foldl f acc < 256 := by
  intro l
  induction l with
  | nil => intro acc h; simpa using h
  | cons b rest ih =>
    intro acc h
    simpa using ih (f acc b) (hf acc b)

theorem authTag_lt (key ct : List Nat) : ∀ b ∈ authTag key ct, b < 256 := by
  intro b hb
  simp only [authTag, List.mem_cons, List.not_mem_nil, or_false] at hb
  rcases hb with hb | hb <;> subst hb <;>
    exact foldlMod_lt _ (fun a b => Nat.mod_lt _ (by norm_num)) _ 0 (by norm_num)

theorem encryptBytes_lt (key : List Nat) :
    ∀ (data : List Nat) (i : Nat), ∀ b ∈ encryptBytes key i data, b < 256 := by
  intro data
  induction data with
  | nil => intro i b hb; cases hb
  | cons x rest ih =>
    intro i b hb
    simp only [encryptBytes, List.mem_cons] at hb
    rcases hb with hb | hb
    · subst hb
      have h1 : x % 256 < 256 := Nat.mod_lt _ (by norm_num)
      have h2 : keystream key i < 256 := keystream_lt key i
      have : (x % 256) ^^^ keystream key i < 2 ^ 8 :=
        Nat.xor_lt_two_pow (by simpa using h1) (by simpa using h2)
      simpa using this
    · exact ih (i + 1) b hb

theorem decryptBytes_encryptBytes (key : List Nat) :
    ∀ (data : List Nat) (i : Nat), (∀ b ∈ data, b < 256) →
      decryptBytes key i (encryptBytes key i data) = data := by
  intro data
  induction data with
  | nil => intro i _; rfl
  | cons x rest ih =>
    intro i h
    have hx : x < 256 := h x (by simp)
    have hrest : ∀ b ∈ rest, b < 256 := fun b hb => h b (by simp [hb])
    simp only [encryptBytes, decryptBytes, ih (i + 1) hrest]
    congr 1
    rw [Nat.xor_assoc, Nat.xor_self, Nat.xor_zero]
    exact Nat.mod_eq_of_lt hx

theorem hexVal_hexDigit (n : Nat) (h : n < 16) : hexVal (hexDigit n) = n := by
  unfold hexVal hexDigit
  split_ifs <;> omega

theorem hexDecode_hexEncode : ∀ (bs : List Nat), (∀ b ∈ bs, b < 256) →
    hexDecode (hexEncode bs) = bs := by
  intro bs
  induction bs with
  | nil => intro _; rfl
  | cons b rest ih =>
    intro h
    have hb : b < 256 := h b (by simp)
    have hrest : ∀ x ∈ rest, x < 256 := fun x hx => h x (by simp [hx])
    have h1 : b / 16 % 16 < 16 := Nat.mod_lt _ (by norm_num)
    have h2 : b % 16 < 16 := Nat.mod_lt _ (by norm_num)
    simp only [hexEncode, hexDecode, ih hrest,
      hexVal_hexDigit _ h1, hexVal_hexDigit _ h2]
    congr 1
    have : b / 16 % 16 = b / 16 := Nat.mod_eq_of_lt (by omega)
    rw [this]
    omega

theorem hexDigit_ne_pipe (n : Nat) (h : n < 16) : hexDigit n ≠ 124 := by
  unfold hexDigit
  split_ifs <;> omega

theorem hexEncode_no_pipe : ∀ (bs : List Nat), 124 ∉ hexEncode bs := by
  intro bs
  induction bs with
  | nil => simp [hexEncode]
  | cons b rest ih =>
    simp only [hexEncode, List.mem_cons, not_or]
    refine ⟨?_, ?_, ih⟩
    · intro hc
      exact hexDigit_ne_pipe _ (Nat.mod_lt _ (by norm_num)) hc.symm
    · intro hc
      exact hexDigit_ne_pipe _ (Nat.mod_lt _ (by norm_num)) hc.symm

theorem splitPipe_no_pipe : ∀ (s : List Nat), 124 ∉ s → splitPipe s = [s] := by
  intro s
  induction s with
  | nil => intro _; rfl
  | cons c rest ih =>
    intro h
    have hc : c ≠ 124 := fun hh => h (by simp [hh])
    have hrest : 124 ∉ rest := fun hh => h (by simp [hh])
    simp only [splitPipe, if_neg hc, ih hrest]

theorem splitPipe_append (a b : List Nat) (ha : 124 ∉ a) :
    splitPipe (a ++ 124 :: b) = a :: splitPipe b := by
  induction a with
  | nil => simp [splitPipe]
  | cons c rest ih =>
    have hc : c ≠ 124 := fun hh => ha (by simp [hh])
    have hrest : 124 ∉ rest := fun hh => ha (by simp [hh])
    simp only [List.cons_append, splitPipe, List.append_eq, if_neg hc, ih hrest]

/-! ### The hub state machine

`GodHeadNexus` (nexus_core.js) holds `quantumKey`, `model` (initially
`null`), `iotDataCache` and — read by `getNexusStatus` but assigned by no
operation — `lastPrediction`.  Externally observable actions (model-load
HTTP requests, `emit` calls, `ipfs.add` calls, `console.error`) are
recorded in an event trace so that claims about "what was emitted" and
"how many loads were issued" are statements about the trace. -/

/-- Externally observable actions of the hub, in program order. -/
inductive Event
  | loadAttempt (ok : Bool)
  | modelLoaded
  | predictionMade (adjustment : Int)
  | iotDataUpdated
  | storeCall (payload : List Nat) (ok : Bool)
  | trainingTriggered (cid : Nat)
  | peggingAdjusted (newPeg : Int)
  | logError
deriving DecidableEq, Repr

/-- Responses of the external collaborators, congruent with the narrow
interfaces the code calls: `loaderResult n` is the outcome of the `n`-th
`tf.loadLayersModel` request (a model is an opaque handle `Nat`);
`infer m v` is `model.predict(v).dataSync()[0]`; `storeResult p` is the
outcome of `ipfs.add(p)` (a CID is an opaque `Nat`); `iotFetch id` is the
`axios.get` result for sensor `id`; `now` is `Date.now()`. -/
structure Env where
  loaderResult : Nat → Except Unit Nat
  infer : Nat → List Int → Int
  storeResult : List Nat → Except Unit Nat
  iotFetch : Nat → Except Unit Int
  now : Int

/-- The mutable fields of a `GodHeadNexus` instance, plus the event trace.
`lastPrediction` mirrors `this.lastPrediction`: no method of the class
ever assigns it. -/
structure NexusState where
  quantumKey : List Nat
  model : Option Nat
  iotDataCache : List (Nat × Int)
  lastPrediction : Option Int
  trace : List Event
deriving DecidableEq, Repr

/-- Number of model-load requests recorded so far (used to index
`Env.loaderResult`, giving each request its own outcome). -/
def countLoads (tr : List Event) : Nat :=
  tr.countP (fun e => match e with | Event.loadAttempt _ => true | _ => false)

/-- `loadModel` (nexus_core.js lines 20-30): request the model; on success
assign `this.model` and emit `modelLoaded`; on failure `console.error` and
return normally — the error is swallowed and `this.model` stays `null`. -/
def loadModel (env : Env) (s : NexusState) : NexusState :=
  match env.loaderResult (countLoads s.trace) with
  | Except.ok m =>
    { s with model := some m
             trace := s.trace ++ [Event.loadAttempt true, Event.modelLoaded] }
  | Except.error _ =>
    { s with trace := s.trace ++ [Event.loadAttempt false, Event.logError] }

/-- `predictAdjustment` (nexus_core.js lines 33-41): if `this.model` is
`null`, await `loadModel()` first; then call `this.model.predict`.  When
the load failed, `this.model` is still `null` and the method throws a JS
`TypeError` (`Cannot read properties of null`); otherwise it emits
`predictionMade` and returns the adjustment.  The state component of the
result records the mutations performed before any throw. -/
def predictAdjustment (env : Env) (marketData : List Int) (s : NexusState) :
    Except JsError Int × NexusState :=
  let s1 := if s.model.isNone then loadModel env s else s
  match s1.model with
  | none => (Except.error JsError.typeError, s1)
  | some m =>
    let adjustment := env.infer m marketData
    (Except.ok adjustment,
     { s1 with trace := s1.trace ++ [Event.predictionMade adjustment] })

/-- `fetchIoTSensors` (nexus_core.js lines 44-60): `Promise.all` of one GET
per sensor id; on overall success replace the cache and emit
`iotDataUpdated`; if any request rejects, `console.error` and return `{}`
with the cache untouched. -/
def fetchIoTSensors (env : Env) (sensorIds : List Nat) (s : NexusState) :
    List (Nat × Int) × NexusState :=
  let results := sensorIds.map (fun id => (id, env.iotFetch id))
  if results.all (fun r => r.2.isOk) then
    let cache := results.map (fun r => (r.1, r.2.toOption.getD 0))
    (cache, { s with iotDataCache := cache
                     trace := s.trace ++ [Event.iotDataUpdated] })
  else
    ([], { s with trace := s.trace ++ [Event.logError] })

/-- `triggerFederatedTraining` (nexus_core.js lines 63-74): encrypt the
JSON-serialized contribution with `quantumEncrypt`, then
`await this.ipfs.add(...)` — with no `try`/`catch`, so a storage failure
propagates out as a rejected promise; on success emit `trainingTriggered`
with the returned CID. -/
def triggerFederatedTraining (env : Env) (contributionJson : List Nat)
    (s : NexusState) : Except JsError Nat × NexusState :=
  let encryptedData := quantumEncrypt s.quantumKey contributionJson
  match env.storeResult encryptedData with
  | Except.ok cid =>
    (Except.ok cid,
     { s with trace := s.trace ++ [Event.storeCall encryptedData true,
                                   Event.trainingTriggered cid] })
  | Except.error _ =>
    (Except.error JsError.storageError,
     { s with trace := s.trace ++ [Event.storeCall encryptedData false] })

/-- The snapshot returned by `getNexusStatus`. -/
structure NexusStatus where
  modelLoaded : Bool
  iotCache : List (Nat × Int)
  lastPrediction : Option Int
deriving DecidableEq, Repr

/-- `getNexusStatus` (nexus_core.js lines 125-131): a read-only snapshot.
`this.lastPrediction || null` maps both `undefined` and the falsy `0` to
`null`. -/
def getNexusStatus (s : NexusState) : NexusStatus :=
  { modelLoaded := s.model.isSome
    iotCache := s.iotDataCache
    lastPrediction :=
      match s.lastPrediction with
      | some v => if v = 0 then none else some v
      | none => none }

/-- The fresh state built by the `GodHeadNexus` constructor before its
fire-and-forget `this.loadModel()` call. -/
def nexusInit (key : List Nat) : NexusState :=
  { quantumKey := key, model := none, iotDataCache := [],
    lastPrediction := none, trace := [] }

/-- The constructor (nexus_core.js lines 9-17): initialize the fields and
invoke `loadModel` (modelled as having run to completion). -/
def initNexus (env : Env) (key : List Nat) : NexusState :=
  loadModel env (nexusInit key)

/-! ### The IoT integration layer (`iot_integration.js`, src/unnamed/part_003) -/

/-- A parsed sensor payload as `processSensorData` receives it; absent JSON
fields are `none` (JS `undefined`). -/
structure SensorData where
  price : Option Int
  volume : Option Int
  timestamp : Option Int
  energyPrice : Option Int
  commodityIndex : Option Int
deriving DecidableEq, Repr

/-- JavaScript `x || d` on a possibly-absent number: `undefined` and the
falsy `0` both fall through to the default. -/
def jsOr (o : Option Int) (d : Int) : Int :=
  match o with
  | none => d
  | some v => if v = 0 then d else v

/-- JavaScript `x > n` on a possibly-absent number: `undefined > n` is
`false`. -/
def jsGt (o : Option Int) (n : Int) : Bool :=
  match o with
  | none => false
  | some v => decide (n < v)

/-- The five-element feature vector built in `processSensorData`
(part_003 lines 54-60), with the JS `||` defaults. -/
def featureVector (d : SensorData) (now : Int) : List Int :=
  [jsOr d.price 314159, jsOr d.volume 1000, jsOr d.timestamp now,
   jsOr d.energyPrice 0, jsOr d.commodityIndex 0]

/-- Injective byte-level encoding of a possibly-absent field, building
block of the `JSON.stringify` model. -/
def encOptInt : Option Int → List Nat
  | none => [0]
  | some v => [1, if v < 0 then 1 else 0, v.natAbs]

/-- Models `JSON.stringify(data)` for a sensor payload: a concrete
injective serialization of the five fields. -/
def stringifySensorData (d : SensorData) : List Nat :=
  encOptInt d.price ++ encOptInt d.volume ++ encOptInt d.timestamp ++
    encOptInt d.energyPrice ++ encOptInt d.commodityIndex

/-- Models `JSON.stringify({ sensorData: data })`, the contribution passed
to `triggerFederatedTraining` (part_003 line 67): the wrapping object key
is a constant prefix. -/
def stringifyContribution (d : SensorData) : List Nat :=
  115 :: stringifySensorData d

/-- The encrypted payload `triggerFederatedTraining` hands to the storage
backend for a given contribution. -/
def contributionPayload (s : NexusState) (d : SensorData) : List Nat :=
  quantumEncrypt s.quantumKey (stringifyContribution d)

/-- The peg value computed inside `adjustPiPegging` (part_003 lines 74-78):
`basePeg + adjustment * 1000000`, with `basePeg = 3141590000000`
(1 PI = $314,159 in micro-units).  No clamping is applied. -/
def newPeg (adjustment : Int) : Int :=
  3141590000000 + adjustment * 1000000

/-- `adjustPiPegging` (part_003 lines 74-81): compute the new peg from the
constant base and emit `peggingAdjusted` on the nexus.  Nothing is stored. -/
def adjustPiPegging (adjustment : Int) (s : NexusState) : NexusState :=
  { s with trace := s.trace ++ [Event.peggingAdjusted (newPeg adjustment)] }

/-- The mutable fields of an `IoTIntegration` instance: its own key, the
`sensorData` cache of tuples (topic, raw, encrypted, timestamp) with the
newest entry first so that the first match wins on lookup, and the
referenced nexus. -/
structure IoTState where
  quantumKey : List Nat
  sensorCache : List (Nat × SensorData × List Nat × Int)
  nexus : NexusState
deriving DecidableEq, Repr

/-- `processSensorData` (part_003 lines 46-71): encrypt and cache the
reading, `await` a prediction, adjust the peg, and — when
`data.energyPrice > 50` — `await triggerFederatedTraining`.  Neither await
is guarded by `try`/`catch`, so a prediction or storage error propagates
out of the reading-processing path; the state component records the
mutations performed before the throw. -/
def processSensorData (env : Env) (topic : Nat) (d : SensorData)
    (st : IoTState) : Except JsError Int × IoTState :=
  let encryptedData := quantumEncrypt st.quantumKey (stringifySensorData d)
  let cache1 := (topic, d, encryptedData, env.now) :: st.sensorCache
  match predictAdjustment env (featureVector d env.now) st.nexus with
  | (Except.error e, nexus1) =>
    (Except.error e, { st with sensorCache := cache1, nexus := nexus1 })
  | (Except.ok adjustment, nexus1) =>
    let nexus2 := adjustPiPegging adjustment nexus1
    if jsGt d.energyPrice 50 then
      match triggerFederatedTraining env (stringifyContribution d) nexus2 with
      | (Except.error e, nexus3) =>
        (Except.error e, { st with sensorCache := cache1, nexus := nexus3 })
      | (Except.ok _, nexus3) =>
        (Except.ok adjustment, { st with sensorCache := cache1, nexus := nexus3 })
    else
      (Except.ok adjustment, { st with sensorCache := cache1, nexus := nexus2 })

/-! ### Sequences of hub operations (for the status-snapshot invariant) -/

/-- One invocation of a public hub operation, with its arguments. -/
inductive Op
  | opLoadModel
  | opPredict (marketData : List Int)
  | opFetchIoT (sensorIds : List Nat)
  | opTriggerTraining (contributionJson : List Nat)
deriving DecidableEq, Repr

/-- Run one hub operation for its state effect (results are returned to the
caller and do not feed back into the hub's fields). -/
def runOp (env : Env) (s : NexusState) : Op → NexusState
  | Op.opLoadModel => loadModel env s
  | Op.opPredict marketData => (predictAdjustment env marketData s).2
  | Op.opFetchIoT sensorIds => (fetchIoTSensors env sensorIds s).2
  | Op.opTriggerTraining c => (triggerFederatedTraining env c s).2

/-- Run a finite sequence of hub operations from a given state. -/
def runOps (env : Env) (ops : List Op) (s : NexusState) : NexusState :=
  ops.foldl (runOp env) s

/-! ### Interleavings of concurrent `predictAdjustment` calls

`predictAdjustment` runs synchronously from its entry through the
`if (!this.model)` check up to the `await tf.loadLayersModel(...)` inside
`loadModel`; at that await the JS event loop may run other tasks.
`loadModel` keeps no in-flight promise and `predictAdjustment` re-checks
nothing after the await, so each caller that observes `this.model == null`
issues its own load request.  Each concurrent call is a task with a
program counter: `start` (not yet at the check), `waitLoad` (its load
request is in flight), `done`. -/
inductive TaskPc
  | start
  | waitLoad
  | done
deriving DecidableEq, Repr

/-- Shared state of the interleaving model: the `this.model` field, the
number of load requests issued so far, and the per-task program counters. -/
structure ConcState where
  model : Option Nat
  loadsStarted : Nat
  tasks : List TaskPc
deriving DecidableEq, Repr

/-- One scheduler step running task `i`: from `start`, the task executes
the synchronous prefix of `predictAdjustment` — if the model is present it
predicts and finishes, otherwise it enters `loadModel` and issues a load
request; from `waitLoad`, its pending load resolves (with model handle
`loaderModel`), `this.model` is assigned, and the task predicts and
finishes.  Scheduling a finished or out-of-range task does nothing. -/
def concStep (loaderModel : Nat) (s : ConcState) (i : Nat) : ConcState :=
  match s.tasks.get? i with
  | some TaskPc.start =>
    match s.model with
    | some _ => { s with tasks := s.tasks.set i TaskPc.done }
    | none => { s with loadsStarted := s.loadsStarted + 1,
                       tasks := s.tasks.set i TaskPc.waitLoad }
  | some TaskPc.waitLoad =>
    { s with model := some loaderModel, tasks := s.tasks.set i TaskPc.done }
  | _ => s

/-- Run a schedule (a list of task indices) from a given shared state. -/
def runSched (loaderModel : Nat) (sched : List Nat) (s : ConcState) : ConcState :=
  sched.foldl (concStep loaderModel) s

/-- Initial shared state for two concurrent `predictAdjustment` calls
issued while no model is loaded. -/
def concInit2 : ConcState :=
  { model := none, loadsStarted := 0, tasks := [TaskPc.start, TaskPc.start] }

/-! ### Concrete fixtures used by witnesses and counterexamples -/

/-- Example password, code points of "qk". -/
def keyEx : List Nat := [113, 107]

/-- Example plaintext, code points of "hi". -/
def dataEx : List Nat := [104, 105]

/-- An environment whose model loader always fails; storage and IoT
requests succeed. -/
def envFail : Env :=
  { loaderResult := fun _ => Except.error ()
    infer := fun _ _ => 3
    storeResult := fun _ => Except.ok 42
    iotFetch := fun _ => Except.ok 5
    now := 1000 }

/-- The hub state after the constructor plus three `predictAdjustment`
calls under the always-failing loader: four load attempts have failed and
`model` is still `null`. -/
def stateAfterThreeFailures : NexusState :=
  (predictAdjustment envFail [1]
    (predictAdjustment envFail [1]
      (predictAdjustment envFail [1] (initNexus envFail [9])).2).2).2

/-- An environment where everything succeeds: the loader yields model
handle 7 and the storage backend yields CID 42. -/
def envOk : Env := { envFail with loaderResult := fun _ => Except.ok 7 }

/-- Like `envOk` but with a failing storage backend. -/
def envStoreFail : Env := { envOk with storeResult := fun _ => Except.error () }

/-- A nexus with model handle 7 already loaded and an empty trace. -/
def nexusEx : NexusState := { nexusInit [9] with model := some 7 }

/-- An IoT integration instance wired to `nexusEx`. -/
def iotEx : IoTState := { quantumKey := [1, 2], sensorCache := [], nexus := nexusEx }

/-- A sensor reading whose energy-price field is 60. -/
def reading60 : SensorData :=
  { price := none, volume := none, timestamp := none,
    energyPrice := some 60, commodityIndex := none }

/-- A sensor reading whose energy-price field is 10. -/
def reading10 : SensorData := { reading60 with energyPrice := some 10 }

/-! ## Claim theorems -/

/-- C1 (counterexample): the recompute operation does not keep the peg
inside the specification's own bound [0, 4000000000000] (section 8
scenario): the adjustment 1000000 yields peg value 4141590000000, which
exceeds the maximum.  The claimed [min, max] invariant is false of the
code. -/
theorem newPeg_escapes_spec_bound :
    newPeg 1000000 = 4141590000000 ∧ ¬ (newPeg 1000000 ≤ 4000000000000) := by
  constructor
  · norm_num [newPeg]
  · norm_num [newPeg]

/-- C1 (amended): `adjustPiPegging` applies no clamping at all — it emits
the unclamped value `basePeg + adjustment * 1000000`, and for every upper
bound there is an adjustment that drives the peg above it, so no
configured [min, max] bound is invariant under adjustment sequences. -/
theorem adjustPiPegging_unbounded (hi : Int) :
    ∃ adj : Int, hi < newPeg adj ∧
      ∀ s : NexusState,
        (adjustPiPegging adj s).trace =
          s.trace ++ [Event.peggingAdjusted (newPeg adj)] := by
  refine ⟨(hi.natAbs + 1 : Int), ?_, fun s => rfl⟩
  unfold newPeg
  omega

/-- C2: the SecureStore round-trip — for every byte-level plaintext and
every key, `quantumDecrypt` applied to the blob produced by
`quantumEncrypt` under the same key returns exactly the plaintext. -/
theorem quantumDecrypt_quantumEncrypt (key data : List Nat)
    (h : ∀ b ∈ data, b < 256) :
    quantumDecrypt key (quantumEncrypt key data) = Except.ok data := by
  have hct : ∀ b ∈ encryptBytes key 0 data, b < 256 := encryptBytes_lt key data 0
  have htag : ∀ b ∈ authTag key (encryptBytes key 0 data), b < 256 :=
    authTag_lt key (encryptBytes key 0 data)
  simp only [quantumEncrypt, quantumDecrypt,
    splitPipe_append _ _ (hexEncode_no_pipe _),
    splitPipe_no_pipe _ (hexEncode_no_pipe _),
    hexDecode_hexEncode _ hct, hexDecode_hexEncode _ htag,
    decryptBytes_encryptBytes key data 0 h, if_true, eq_self_iff_true]

/-- C2 (witness): the round-trip evaluated at the concrete plaintext "hi"
and key "qk". -/
theorem quantumDecrypt_quantumEncrypt_witness :
    quantumDecrypt keyEx (quantumEncrypt keyEx dataEx) = Except.ok dataEx :=
  quantumDecrypt_quantumEncrypt keyEx dataEx (by decide)

/-- C3: tampering with the tag segment of a validly produced blob makes
`quantumDecrypt` fail with `IntegrityError` and return no plaintext: for
every key, plaintext and byte-level replacement tag different from the
genuine one, decryption of the blob whose tag segment was replaced is the
`integrityError` outcome. -/
theorem quantumDecrypt_tampered_tag (key data tag : List Nat)
    (htag : ∀ b ∈ tag, b < 256)
    (hne : tag ≠ authTag key (encryptBytes key 0 data)) :
    quantumDecrypt key
        (hexEncode (encryptBytes key 0 data) ++ 124 :: hexEncode tag) =
      Except.error JsError.integrityError := by
  have hct : ∀ b ∈ encryptBytes key 0 data, b < 256 := encryptBytes_lt key data 0
  simp only [quantumDecrypt,
    splitPipe_append _ _ (hexEncode_no_pipe _),
    splitPipe_no_pipe _ (hexEncode_no_pipe _),
    hexDecode_hexEncode _ hct, hexDecode_hexEncode _ htag,
    if_neg hne]

/-- C3 (witness): replacing the genuine tag of the blob for plaintext "hi"
under key "qk" by the bytes [9, 9] makes decryption fail with
`integrityError`. -/
theorem quantumDecrypt_tampered_tag_witness :
    quantumDecrypt keyEx
        (hexEncode (encryptBytes keyEx 0 dataEx) ++ 124 :: hexEncode [9, 9]) =
      Except.error JsError.integrityError :=
  quantumDecrypt_tampered_tag keyEx dataEx [9, 9] (by decide) (by decide)

/-- C4 (code evaluated at the failing input): `quantumEncrypt` is built on
`createCipher`, whose key and IV derive from the password alone, so the
blob for a fixed key and plaintext is one fixed value — every repeated
call returns this same constant — and the blob consists of exactly the two
deterministic segments ciphertext and tag, with no nonce segment stored. -/
theorem quantumEncrypt_deterministic_no_nonce :
    quantumEncrypt keyEx dataEx = [99, 48, 48, 52, 124, 49, 101, 57, 56] ∧
    splitPipe (quantumEncrypt keyEx dataEx) =
      [hexEncode (encryptBytes keyEx 0 dataEx),
       hexEncode (authTag keyEx (encryptBytes keyEx 0 dataEx))] := by
  decide

/-- C5 (counterexample): an input with two pipe separators is not rejected
with `FormatError`: appending `"|00"` to a valid blob gives a string with
three segments that `quantumDecrypt` still parses — taking only the first
two segments — and successfully decrypts to the original plaintext. -/
theorem quantumDecrypt_two_pipes_accepts :
    (splitPipe (quantumEncrypt keyEx dataEx ++ [124, 48, 48])).length = 3 ∧
    quantumDecrypt keyEx (quantumEncrypt keyEx dataEx ++ [124, 48, 48]) =
      Except.ok dataEx := by
  decide

/-- C5 (amended): `quantumDecrypt` destructures only the first two
pipe-separated segments.  An input with no pipe fails — with a JS
`TypeError` from the undefined tag segment, not a `FormatError` — and on
an input with more than one pipe every segment after the second is
silently ignored, so such input behaves exactly like its first two
segments. -/
theorem quantumDecrypt_parse_behavior (key blob d t rest : List Nat)
    (hb : 124 ∉ blob) (hd : 124 ∉ d) (ht : 124 ∉ t) :
    quantumDecrypt key blob = Except.error JsError.typeError ∧
    quantumDecrypt key (d ++ 124 :: (t ++ 124 :: rest)) =
      quantumDecrypt key (d ++ 124 :: t) := by
  constructor
  · simp only [quantumDecrypt, splitPipe_no_pipe _ hb]
  · simp only [quantumDecrypt, splitPipe_append _ _ hd, splitPipe_append _ _ ht,
      splitPipe_no_pipe _ ht]

/-- C5 (amended, witness): the parse behavior evaluated at the concrete
no-pipe input "ab" and the segments "a", "b", "0". -/
theorem quantumDecrypt_parse_behavior_witness :
    quantumDecrypt keyEx [97, 98] = Except.error JsError.typeError ∧
    quantumDecrypt keyEx ([97] ++ 124 :: ([98] ++ 124 :: [48])) =
      quantumDecrypt keyEx ([97] ++ 124 :: [98]) :=
  quantumDecrypt_parse_behavior keyEx [97, 98] [97] [98] [48]
    (by decide) (by decide) (by decide)

/-- C6 (counterexample): with the always-failing loader, the
`predictAdjustment` call made after three failed predictions (four failed
load attempts in total) fails — without blocking — but with a JS
`TypeError` from dereferencing the still-null model, which is not
`ModelUnavailableError`. -/
theorem predict_after_failures_not_modelUnavailable :
    (predictAdjustment envFail [1] stateAfterThreeFailures).1 =
      Except.error JsError.typeError ∧
    JsError.typeError ≠ JsError.modelUnavailableError := by
  decide

/-- C6 (amended): whenever no model is loaded and the loader fails,
`predictAdjustment` fails immediately with a JS `TypeError` (the null
model is dereferenced); the code never raises `ModelUnavailableError` and
implements no retry or backoff policy. -/
theorem predictAdjustment_loader_failure (env : Env) (s : NexusState)
    (marketData : List Int) (hm : s.model = none)
    (hl : ∀ n, env.loaderResult n = Except.error ()) :
    (predictAdjustment env marketData s).1 = Except.error JsError.typeError := by
  simp only [predictAdjustment, hm, Option.isNone_none, if_true, loadModel,
    hl (countLoads s.trace)]

/-- C6 (amended, witness): the fourth predict call under the always-failing
loader fails with the JS `TypeError`. -/
theorem predictAdjustment_loader_failure_witness :
    (predictAdjustment envFail [1] stateAfterThreeFailures).1 =
      Except.error JsError.typeError :=
  predictAdjustment_loader_failure envFail stateAfterThreeFailures [1]
    (by decide) (fun n => rfl)

/-- C7: the training gate.  For any state whose model is loaded: processing
a reading whose energy-price field is 60 (threshold 50) hands the
encrypted contribution to the storage backend and emits
`trainingTriggered` carrying the returned fingerprint, while processing a
reading whose energy-price field is 10 emits no training event and makes
no store call — the complete traces are pinned down exactly. -/
theorem processSensorData_training_gate (env : Env) (st : IoTState)
    (m cid topic : Nat) (d60 d10 : SensorData)
    (hm : st.nexus.model = some m)
    (h60 : d60.energyPrice = some 60)
    (h10 : d10.energyPrice = some 10)
    (hstore : env.storeResult (contributionPayload st.nexus d60) = Except.ok cid) :
    (processSensorData env topic d60 st).2.nexus.trace =
      st.nexus.trace ++
        [Event.predictionMade (env.infer m (featureVector d60 env.now)),
         Event.peggingAdjusted (newPeg (env.infer m (featureVector d60 env.now))),
         Event.storeCall (contributionPayload st.nexus d60) true,
         Event.trainingTriggered cid] ∧
    (processSensorData env topic d10 st).2.nexus.trace =
      st.nexus.trace ++
        [Event.predictionMade (env.infer m (featureVector d10 env.now)),
         Event.peggingAdjusted (newPeg (env.infer m (featureVector d10 env.now)))] := by
  constructor
  · simp only [processSensorData, predictAdjustment, hm, Option.isNone_some,
      Bool.false_eq_true, if_false, adjustPiPegging, jsGt, h60,
      triggerFederatedTraining, contributionPayload] at *
    simp only [hstore]
    simp [List.append_assoc]
  · simp [processSensorData, predictAdjustment, hm, adjustPiPegging, jsGt, h10,
      List.append_assoc]

/-- C7 (witness): the gate evaluated with the concrete readings, loaded
model handle 7 and storage fingerprint 42. -/
theorem processSensorData_training_gate_witness :
    (processSensorData envOk 0 reading60 iotEx).2.nexus.trace =
      [Event.predictionMade 3, Event.peggingAdjusted 3141593000000,
       Event.storeCall (contributionPayload iotEx.nexus reading60) true,
       Event.trainingTriggered 42] ∧
    (processSensorData envOk 0 reading10 iotEx).2.nexus.trace =
      [Event.predictionMade 3, Event.peggingAdjusted 3141593000000] := by
  have h := processSensorData_training_gate envOk iotEx 7 42 0 reading60 reading10
    rfl rfl rfl rfl
  exact ⟨h.1.trans (by decide), h.2.trans (by decide)⟩

/-- C8 (counterexample): a storage-backend failure is not contained in the
reading-processing path: with a failing store, `processSensorData` on a
gate-passing reading itself returns the storage error — the exception
propagates out instead of being logged and dropped at its origin. -/
theorem processSensorData_store_failure_escapes :
    (processSensorData envStoreFail 0 reading60 iotEx).1 =
      Except.error JsError.storageError := by
  decide

/-- C8 (amended): when the storage backend fails, the contribution is
dropped (a single store attempt, no retry, no `trainingTriggered` event)
but the failure is not caught: `triggerFederatedTraining` has no
`try`/`catch`, so the error propagates out of `processSensorData` to its
caller. -/
theorem processSensorData_store_failure (env : Env) (st : IoTState)
    (m topic : Nat) (d : SensorData)
    (hm : st.nexus.model = some m)
    (hgate : jsGt d.energyPrice 50 = true)
    (hstore : env.storeResult (contributionPayload st.nexus d) = Except.error ()) :
    (processSensorData env topic d st).1 = Except.error JsError.storageError ∧
    (processSensorData env topic d st).2.nexus.trace =
      st.nexus.trace ++
        [Event.predictionMade (env.infer m (featureVector d env.now)),
         Event.peggingAdjusted (newPeg (env.infer m (featureVector d env.now))),
         Event.storeCall (contributionPayload st.nexus d) false] := by
  simp only [processSensorData, predictAdjustment, hm, Option.isNone_some,
    Bool.false_eq_true, if_false, adjustPiPegging, hgate, if_true,
    triggerFederatedTraining, contributionPayload] at *
  simp only [hstore]
  simp [List.append_assoc]

/-- C8 (amended, witness): the propagating storage failure evaluated at the
concrete failing-store environment and the energy-price-60 reading. -/
theorem processSensorData_store_failure_witness :
    (processSensorData envStoreFail 0 reading60 iotEx).1 =
      Except.error JsError.storageError ∧
    (processSensorData envStoreFail 0 reading60 iotEx).2.nexus.trace =
      iotEx.nexus.trace ++
        [Event.predictionMade (envStoreFail.infer 7 (featureVector reading60 envStoreFail.now)),
         Event.peggingAdjusted (newPeg (envStoreFail.infer 7 (featureVector reading60 envStoreFail.now))),
         Event.storeCall (contributionPayload iotEx.nexus reading60) false] :=
  processSensorData_store_failure envStoreFail iotEx 7 0 reading60
    rfl rfl rfl

/-- C9 (counterexample): two concurrent `predictAdjustment` calls issued
while no model is loaded do not share one load: under the interleaving in
which both calls pass the `if (!this.model)` check before either load
resolves, two load operations are issued — not exactly one — and both
calls still complete. -/
theorem concurrent_predicts_two_loads :
    (runSched 7 [0, 1, 0, 1] concInit2).loadsStarted = 2 ∧
    (runSched 7 [0, 1, 0, 1] concInit2).tasks = [TaskPc.done, TaskPc.done] ∧
    (2 : Nat) ≠ 1 := by
  decide

/-- C9 (amended): each concurrent caller that observes a null model issues
its own load — `loadModel` keeps no in-flight promise to share.  The
interleaved schedule issues two loads, and only the schedule in which the
first call's load completes before the second call checks the model issues
one. -/
theorem concurrent_predicts_load_count :
    (runSched 7 [0, 1, 0, 1] concInit2).loadsStarted = 2 ∧
    (runSched 7 [0, 0, 1, 1] concInit2).loadsStarted = 1 := by
  decide

/-- Helper for C10: no hub operation writes the `lastPrediction` field. -/
theorem runOp_lastPrediction (env : Env) (s : NexusState) (op : Op) :
    (runOp env s op).lastPrediction = s.lastPrediction := by
  cases op with
  | opLoadModel =>
    simp only [runOp, loadModel]
    cases env.loaderResult (countLoads s.trace) <;> rfl
  | opPredict marketData =>
    simp only [runOp, predictAdjustment, loadModel]
    cases hm : s.model with
    | none =>
      cases env.loaderResult (countLoads s.trace) <;> simp [hm]
    | some m => simp [hm]
  | opFetchIoT sensorIds =>
    simp only [runOp, fetchIoTSensors]
    by_cases hall :
        (sensorIds.map (fun id => (id, env.iotFetch id))).all (fun r => r.2.isOk) <;>
      simp [hall]
  | opTriggerTraining c =>
    simp only [runOp, triggerFederatedTraining]
    cases env.storeResult (quantumEncrypt s.quantumKey c) <;> rfl

/-- Helper for C10: sequences of hub operations preserve `lastPrediction`. -/
theorem runOps_lastPrediction (env : Env) (ops : List Op) :
    ∀ s : NexusState, (runOps env ops s).lastPrediction = s.lastPrediction := by
  induction ops with
  | nil => intro s; rfl
  | cons op rest ih =>
    intro s
    simp only [runOps, List.foldl_cons]
    rw [show (rest.foldl (runOp env) (runOp env s op)) = runOps env rest (runOp env s op) from rfl,
      ih (runOp env s op), runOp_lastPrediction]

/-- C10: after every finite sequence of hub operations from a freshly
constructed nexus, the status snapshot's `lastPrediction` field is `null`:
no operation ever assigns `this.lastPrediction`, so `getNexusStatus` never
reports a last prediction. -/
theorem getNexusStatus_lastPrediction_none (env : Env) (key : List Nat)
    (ops : List Op) :
    (getNexusStatus (runOps env ops (initNexus env key))).lastPrediction = none := by
  have h1 : (initNexus env key).lastPrediction = none := by
    simp only [initNexus, loadModel, nexusInit]
    cases env.loaderResult (countLoads ([] : List Event)) <;> rfl
  rw [getNexusStatus, runOps_lastPrediction, h1]

end Nexus
